import Mathlib

/-!
# Verification of the media-adapter session, cookie and pagination core

Shallow embedding of the `media_adapter` repository (Python) in Lean 4:

* `media_adapter/adapters/xhs/adapter.py` — the `XhsSignalAdapter` facade
  (`search_notes`, `get_note_detail`, `get_note_comments`, `get_creator_info`),
  its keyword pagination loop and its exception-to-`ToolResult` boundary;
* `media_adapter/utils/browser_session.py` — `BrowserSessionManager.get_session`,
  `_cleanup_session`, and the `_setup_xhs_client` / `_setup_douyin_client`
  login branches;
* `media_adapter/utils/cookie_manager.py` — `CookieManager.save_cookie`,
  `get_cookie`, `get_all_cookies`, `_load_cookies_from_file`.

External collaborators (the playwright driver, the per-platform HTTP clients,
the URL-parsing helper `parse_note_info_from_note_url` that lives in the
`media_adapter.platforms` package, and the result sink) are modelled as
record-of-functions environments whose calls return `Except String`,
mirroring the fact that any such call may raise in Python.  Loops whose
number of iterations is driven by the remote service are given an explicit
`fuel` argument; every bound proved below holds for every fuel value.

Python strings handled character-by-character (the cookie file) are modelled
as `List Char`; strings only stored, compared or split are Lean `String`s.
-/

namespace MediaAdapter

/-! ## Python string primitives

`str.strip()`, `str.split(sep)` and `str.lower()` are modelled
character-wise over `List Char` so that every definition is structurally
recursive and evaluates by kernel reduction. -/

/-- A Python string processed character-wise. -/
abbrev Str := List Char

/-- The whitespace characters stripped by `str.strip()` (the ASCII ones;
the strings handled here are ASCII). -/
def isPySpace (c : Char) : Bool :=
  c = ' ' || c = '\t' || c = '\n' || c = '\r' || c = '\x0b' || c = '\x0c'

/-- Drop trailing whitespace (the right half of `str.strip()`). -/
def dropTrailingSpaces : Str → Str
  | [] => []
  | c :: rest =>
    let r := dropTrailingSpaces rest
    if r.isEmpty && isPySpace c then [] else c :: r

/-- `str.strip()`. -/
def pyStrip (s : Str) : Str :=
  dropTrailingSpaces (s.dropWhile isPySpace)

/-- `str.split(sep)` for a one-character separator: splits at every
occurrence, keeping empty pieces (`"".split(",") == [""]`). -/
def pySplit (sep : Char) : Str → List Str
  | [] => [[]]
  | c :: rest =>
    let r := pySplit sep rest
    if c = sep then [] :: r else (c :: r.headD []) :: r.tail

/-- `str.lower()` (ASCII). -/
def pyLower (s : String) : String :=
  String.mk (s.toList.map Char.toLower)

/-! ## ToolResult (adapters/base.py) -/

/-- A value stored in the `metadata` dict of a `ToolResult`. -/
inductive MetaVal where
  | natV (n : Nat)
  | strV (s : String)
  | listV (l : List String)
  | noneV
deriving DecidableEq, Repr

/-- One normalized search result produced by `search_notes` (the dict
literal built at adapter.py:426-438). -/
structure NoteItem where
  note_id : String
  title : String
  desc : String
  author : String
  author_id : String
  liked_count : Nat
  collected_count : Nat
  comment_count : Nat
  note_type : String
  keyword : String
  xsec_token : String
deriving DecidableEq, Repr

/-- One normalized comment produced by `get_note_comments`
(adapter.py:601-609). -/
structure CommentItem where
  comment_id : String
  content : String
  author : String
  author_id : String
  liked_count : Nat
  create_time : String
  sub_comment_count : Nat
deriving DecidableEq, Repr

/-- The normalized note-detail dict built by `get_note_detail`
(adapter.py:522-537). -/
structure NoteDetailData where
  note_id : String
  title : String
  desc : String
  content : String
  author : String
  author_id : String
  liked_count : Nat
  collected_count : Nat
  comment_count : Nat
  share_count : Nat
  create_time : String
  last_update_time : String
  image_list : List String
  tag_list : List String
deriving DecidableEq, Repr

/-- The normalized creator dict built by `get_creator_info`
(adapter.py:663-674). -/
structure CreatorData where
  user_id : String
  nickname : String
  desc : String
  gender : String
  ip_location : String
  follows : Nat
  fans : Nat
  interaction : Nat
  level : List (String × String)
  tags : List String
deriving DecidableEq, Repr

/-- The (dynamically typed) `data` field of a `ToolResult`. -/
inductive ToolData where
  | noneD
  | notes (xs : List NoteItem)
  | comments (xs : List CommentItem)
  | detail (d : NoteDetailData)
  | creator (c : CreatorData)
deriving DecidableEq, Repr

/-- Length of the `data` field when it is a list, `0` otherwise. -/
def toolDataLength : ToolData → Nat
  | ToolData.notes xs => xs.length
  | ToolData.comments xs => xs.length
  | _ => 0

/-- `ToolResult` from `media_adapter/adapters/base.py` (lines 66-79):
uniform result envelope of every facade tool. -/
structure ToolResult where
  success : Bool := true
  data : ToolData := ToolData.noneD
  error : Option String := none
  metadata : List (String × MetaVal) := []
deriving DecidableEq, Repr

/-! ## Raw platform payloads read by the XHS adapter

Each structure lists exactly the dict keys the adapter reads, each key an
`Option` because Python reads them with `.get` and a default. -/

/-- The `user` sub-dict of a search-result note card. -/
structure XhsUserRaw where
  nickname : Option String := none
  nick_name : Option String := none
  user_id : Option String := none
deriving DecidableEq, Repr

/-- The `interact_info` sub-dict of a search-result note card. -/
structure XhsInteractRaw where
  liked_count : Option Nat := none
  collected_count : Option Nat := none
  comment_count : Option Nat := none
deriving DecidableEq, Repr

/-- The `note_card` sub-dict of one search item (adapter.py:422-435). -/
structure NoteCardRaw where
  display_title : Option String := none
  title : Option String := none
  desc : Option String := none
  user : Option XhsUserRaw := none
  interact_info : Option XhsInteractRaw := none
  liked_count : Option Nat := none
  collected_count : Option Nat := none
  comments_count : Option Nat := none
  card_type : Option String := none
deriving DecidableEq, Repr

/-- One raw item of a search response page (adapter.py:405-438). -/
structure NoteRaw where
  id : Option String := none
  model_type : Option String := none
  note_card : Option NoteCardRaw := none
  xsec_token : Option String := none
deriving DecidableEq, Repr

/-- One page returned by `client.get_note_by_keyword`
(`items` and `has_more` keys, adapter.py:405 and 441). -/
structure SearchResponseRaw where
  items : Option (List NoteRaw) := none
  has_more : Option Bool := none
deriving DecidableEq, Repr

/-- The dict consumed by `get_note_detail` (adapter.py:522-536). -/
structure InteractDetailRaw where
  liked_count : Option Nat := none
  collected_count : Option Nat := none
  comment_count : Option Nat := none
  share_count : Option Nat := none
deriving DecidableEq, Repr

/-- Raw note-detail payload returned by `client.get_note_by_id`. -/
structure NoteDetailRaw where
  note_id : Option String := none
  title : Option String := none
  desc : Option String := none
  user : Option XhsUserRaw := none
  interact_info : Option InteractDetailRaw := none
  time : Option String := none
  last_update_time : Option String := none
  image_list : Option (List String) := none
  tag_list : Option (List String) := none
deriving DecidableEq, Repr

/-- The `user_info` sub-dict of a raw comment. -/
structure CommentUserRaw where
  nickname : Option String := none
  user_id : Option String := none
deriving DecidableEq, Repr

/-- One raw comment of a comments page (adapter.py:600-609). -/
structure CommentRaw where
  id : Option String := none
  content : Option String := none
  user_info : Option CommentUserRaw := none
  like_count : Option Nat := none
  create_time : Option String := none
  sub_comment_count : Option Nat := none
deriving DecidableEq, Repr

/-- One page returned by `client.get_note_comments`
(`comments`, `cursor`, `has_more`; `comments := none` models the key
being absent, which makes the loop break at adapter.py:597). -/
structure CommentsPageRaw where
  comments : Option (List CommentRaw) := none
  cursor : Option String := none
  has_more : Option Bool := none
deriving DecidableEq, Repr

/-- Raw creator payload returned by `client.get_creator_info`
(adapter.py:663-674). -/
structure CreatorRaw where
  user_id : Option String := none
  nickname : Option String := none
  desc : Option String := none
  gender : Option String := none
  ip_location : Option String := none
  follows : Option Nat := none
  fans : Option Nat := none
  interaction : Option Nat := none
  level : Option (List (String × String)) := none
  tags : Option (List String) := none
deriving DecidableEq, Repr

/-- `SearchSortType` enum imported from `media_adapter.platforms.xhs.field`
(values used at adapter.py:378-383). -/
inductive SearchSortType where
  | general
  | most_popular
  | latest
deriving DecidableEq, Repr

/-- The result of `parse_note_info_from_note_url` (external helper from
`media_adapter.platforms.xhs.help`); the adapter reads its `note_id` and
`xsec_token` attributes (adapter.py:504-507). -/
structure NoteUrlInfo where
  note_id : String
  xsec_token : String
deriving DecidableEq, Repr

/-! ## The client and environment capability records

`XhsClientModel` is the `session.client` object: each method may raise,
hence returns `Except String`.  A `.ok none` result models a falsy
(`None`/empty) response. -/

/-- The platform client held by a session, as used by the XHS adapter. -/
structure XhsClientModel where
  get_note_by_keyword : String → Nat → SearchSortType → Except String (Option SearchResponseRaw)
  get_note_by_id : String → String → String → Except String (Option NoteDetailRaw)
  get_note_comments : String → String → String → Except String (Option CommentsPageRaw)
  get_creator_info : String → Except String (Option CreatorRaw)

/-- The browser session seen by the facade (`BrowserSession.is_logged_in`
and `.client` are the only attributes `search_notes` reads). -/
structure XhsSessionModel where
  is_logged_in : Bool
  client : XhsClientModel

/-- Environment of one facade call: `_get_session`, `_get_cookie`, the
configured headless flag, the URL parser and the output manager.  Every
field that performs I/O in Python returns `Except String`. -/
structure XhsEnv where
  get_session : Except String XhsSessionModel
  get_cookie : Except String String
  headless : Bool
  parse_note_url : String → Except String NoteUrlInfo
  save_json : Except String String

/-! ## search_notes (adapter.py:341-481) -/

/-- `sort_type_map.get(sort_by, SearchSortType.GENERAL)` (adapter.py:378-383). -/
def sortTypeOf (sort_by : String) : SearchSortType :=
  if sort_by = "general" then SearchSortType.general
  else if sort_by = "hot" then SearchSortType.most_popular
  else if sort_by = "time" then SearchSortType.latest
  else SearchSortType.general

/-- `[k.strip() for k in keywords.split(",")]` (adapter.py:386). -/
def keywordListOf (keywords : String) : List String :=
  (pySplit ',' keywords.toList).map fun cs => String.mk (pyStrip cs)

/-- Empty note card used when an item has no `note_card` key
(`note.get("note_card", note)` falls back to a dict without card keys). -/
def emptyCard : NoteCardRaw := {}

/-- Normalization of one raw search item (adapter.py:417-438). -/
def normalizeSearchNote (keyword : String) (note : NoteRaw) : NoteItem :=
  let note_card := note.note_card.getD emptyCard
  let user_info := note_card.user.getD {}
  let interact_info := note_card.interact_info.getD {}
  { note_id := note.id.getD ""
    title := note_card.display_title.getD (note_card.title.getD "")
    desc := note_card.desc.getD ""
    author := user_info.nickname.getD (user_info.nick_name.getD "")
    author_id := user_info.user_id.getD ""
    liked_count := interact_info.liked_count.getD (note_card.liked_count.getD 0)
    collected_count := interact_info.collected_count.getD (note_card.collected_count.getD 0)
    comment_count := interact_info.comment_count.getD (note_card.comments_count.getD 0)
    note_type := note_card.card_type.getD ""
    keyword := keyword
    xsec_token := note.xsec_token.getD "" }

/-- The `for note in notes` loop (adapter.py:417-438): appends normalized
items, breaking as soon as the per-keyword limit is reached. -/
def appendNotes (keyword : String) (limit_per : Nat) : List NoteItem → List NoteRaw → List NoteItem
  | acc, [] => acc
  | acc, n :: rest =>
    if limit_per ≤ acc.length then acc
    else appendNotes keyword limit_per (acc ++ [normalizeSearchNote keyword n]) rest

/-- Is the raw item filtered out (`model_type in ("rec_query", "hot_query")`,
adapter.py:410)? -/
def isFilteredModel (n : NoteRaw) : Bool :=
  n.model_type = some "rec_query" || n.model_type = some "hot_query"

/-- The per-keyword `while len(keyword_results) < limit_per_keyword`
pagination loop (adapter.py:391-449).  A raised client exception is caught
by the inner `try` and only breaks this keyword's loop.  `fuel` bounds the
number of page requests; all claims hold for every fuel. -/
def searchKeywordLoop (client : XhsClientModel) (keyword : String)
    (sort : SearchSortType) (limit_per : Nat) :
    Nat → Nat → List NoteItem → List NoteItem
  | 0, _, acc => acc
  | fuel + 1, page, acc =>
    if acc.length < limit_per then
      match client.get_note_by_keyword keyword page sort with
      | Except.error _ => acc
      | Except.ok none => acc
      | Except.ok (some response) =>
        let notes0 := response.items.getD []
        if notes0.isEmpty then acc
        else
          let notes := notes0.filter fun n => !isFilteredModel n
          let acc' := appendNotes keyword limit_per acc notes
          if !(response.has_more.getD false) then acc'
          else searchKeywordLoop client keyword sort limit_per fuel (page + 1) acc'
    else acc

/-- The outer `for keyword in keyword_list` loop with
`results.extend(keyword_results)` (adapter.py:389-451). -/
def searchAllKeywords (client : XhsClientModel) (sort : SearchSortType)
    (limit_per : Nat) (fuel : Nat) : List String → List NoteItem
  | [] => []
  | kw :: rest =>
    searchKeywordLoop client kw sort limit_per fuel 1 []
      ++ searchAllKeywords client sort limit_per fuel rest

/-- The error ToolResult built by every facade `except` clause
(`ToolResult(success=False, error=str(e), metadata={"platform": "xhs"})`). -/
def errToolResult (e : String) : ToolResult :=
  { success := false, data := ToolData.noneD, error := some e,
    metadata := [("platform", MetaVal.strV "xhs")] }

/-- The early `ToolResult` returned when the session is not logged in, no
cookie exists and headless is set (adapter.py:368-372). -/
def noCookieResult : ToolResult :=
  { success := false, data := ToolData.noneD,
    error := some "No cookies found and headless mode enabled. Please add cookies to cookies/xhs_cookies.txt or run with headless=False for QR login.",
    metadata := [("platform", MetaVal.strV "xhs")] }

/-- Body of `search_notes` after the session/login check (adapter.py:377-474). -/
def search_notes_core (env : XhsEnv) (session : XhsSessionModel)
    (keywords : String) (limit : Nat) (sort_by : String)
    (save_results : Bool) (fuel : Nat) : Except String ToolResult :=
  let sort_type := sortTypeOf sort_by
  let keyword_list := keywordListOf keywords
  let limit_per_keyword := if keyword_list.isEmpty then limit else limit / keyword_list.length
  let results := searchAllKeywords session.client sort_type limit_per_keyword fuel keyword_list
  let final_results := results.take limit
  match (if save_results && !final_results.isEmpty then Except.map some env.save_json
         else Except.ok none) with
  | Except.error e => Except.error e
  | Except.ok saved_path =>
    Except.ok
      { success := true, data := ToolData.notes final_results, error := none,
        metadata :=
          [("total", MetaVal.natV final_results.length),
           ("keywords", MetaVal.listV keyword_list),
           ("platform", MetaVal.strV "xhs"),
           ("saved_path", match saved_path with
                          | some p => MetaVal.strV p
                          | none => MetaVal.noneV)] }

/-- The `try` body of `search_notes` (adapter.py:360-474): session
acquisition, the not-logged-in early return, then the keyword loops.
An `Except.error` is an exception reaching the outer `except`. -/
def search_notes_run (env : XhsEnv) (keywords : String) (limit : Nat)
    (sort_by : String) (save_results : Bool) (fuel : Nat) : Except String ToolResult :=
  match env.get_session with
  | Except.error e => Except.error e
  | Except.ok session =>
    if !session.is_logged_in then
      match env.get_cookie with
      | Except.error e => Except.error e
      | Except.ok cookie_str =>
        if cookie_str = "" && env.headless then Except.ok noCookieResult
        else search_notes_core env session keywords limit sort_by save_results fuel
    else search_notes_core env session keywords limit sort_by save_results fuel

/-- `XhsSignalAdapter.search_notes` (adapter.py:341-481): the outermost
`except Exception` converts any raised error into a failure `ToolResult`. -/
def search_notes (env : XhsEnv) (keywords : String) (limit : Nat)
    (sort_by : String) (save_results : Bool) (fuel : Nat) : ToolResult :=
  match search_notes_run env keywords limit sort_by save_results fuel with
  | Except.ok r => r
  | Except.error e => errToolResult e

/-! ## get_note_detail, get_note_comments, get_creator_info
(adapter.py:483-689) -/

/-- Does `sub` occur contiguously in `s` (as character lists)? -/
def listHasInfix (sub : List Char) : List Char → Bool
  | [] => sub.isEmpty
  | c :: rest => sub.isPrefixOf (c :: rest) || listHasInfix sub rest

/-- Substring containment, `sub in s` on Python strings. -/
def strContains (s sub : String) : Bool :=
  listHasInfix sub.toList s.toList

/-- URL-to-id resolution shared by `get_note_detail` and
`get_note_comments` (adapter.py:501-507 and 577-583). -/
def resolveNoteId (env : XhsEnv) (note_id xsec_token : String) :
    Except String (String × String) :=
  if strContains note_id "xiaohongshu.com" || strContains note_id "xhslink.com" then
    match env.parse_note_url note_id with
    | Except.error e => Except.error e
    | Except.ok info =>
      Except.ok (info.note_id,
        if xsec_token = "" && info.xsec_token ≠ "" then info.xsec_token else xsec_token)
  else Except.ok (note_id, xsec_token)

/-- Normalization of the note-detail payload (adapter.py:522-537). -/
def normalizeNoteDetail (nid : String) (d : NoteDetailRaw) : NoteDetailData :=
  let user := d.user.getD {}
  let interact := d.interact_info.getD {}
  { note_id := d.note_id.getD nid
    title := d.title.getD ""
    desc := d.desc.getD ""
    content := d.desc.getD ""
    author := user.nickname.getD ""
    author_id := user.user_id.getD ""
    liked_count := interact.liked_count.getD 0
    collected_count := interact.collected_count.getD 0
    comment_count := interact.comment_count.getD 0
    share_count := interact.share_count.getD 0
    create_time := d.time.getD ""
    last_update_time := d.last_update_time.getD ""
    image_list := d.image_list.getD []
    tag_list := d.tag_list.getD [] }

/-- The `try` body of `get_note_detail` (adapter.py:495-545). -/
def get_note_detail_run (env : XhsEnv) (note_id : String) (xsec_token : String) :
    Except String ToolResult :=
  match resolveNoteId env note_id xsec_token with
  | Except.error e => Except.error e
  | Except.ok (nid, tok) =>
    match env.get_session with
    | Except.error e => Except.error e
    | Except.ok session =>
      match session.client.get_note_by_id nid "pc_search" tok with
      | Except.error e => Except.error e
      | Except.ok (some d) =>
        Except.ok
          { success := true, data := ToolData.detail (normalizeNoteDetail nid d),
            error := none, metadata := [("platform", MetaVal.strV "xhs")] }
      | Except.ok none =>
        Except.ok
          { success := false, data := ToolData.noneD,
            error := some ("Note not found: " ++ nid),
            metadata := [("platform", MetaVal.strV "xhs")] }

/-- `XhsSignalAdapter.get_note_detail` (adapter.py:483-552). -/
def get_note_detail (env : XhsEnv) (note_id : String) (xsec_token : String) : ToolResult :=
  match get_note_detail_run env note_id xsec_token with
  | Except.ok r => r
  | Except.error e => errToolResult e

/-- Normalization of one raw comment (adapter.py:601-609). -/
def normalizeComment (c : CommentRaw) : CommentItem :=
  let user := c.user_info.getD {}
  { comment_id := c.id.getD ""
    content := c.content.getD ""
    author := user.nickname.getD ""
    author_id := user.user_id.getD ""
    liked_count := c.like_count.getD 0
    create_time := c.create_time.getD ""
    sub_comment_count := c.sub_comment_count.getD 0 }

/-- The `while len(comments) < limit` cursor loop of `get_note_comments`
(adapter.py:590-613).  Note: the page's comments are appended in full
before the limit is re-checked, and a client exception propagates (there is
no inner `try` here). -/
def comments_loop (client : XhsClientModel) (note_id xsec : String) (limit : Nat) :
    Nat → String → List CommentItem → Except String (List CommentItem)
  | 0, _, acc => Except.ok acc
  | fuel + 1, cursor, acc =>
    if acc.length < limit then
      match client.get_note_comments note_id xsec cursor with
      | Except.error e => Except.error e
      | Except.ok none => Except.ok acc
      | Except.ok (some page) =>
        match page.comments with
        | none => Except.ok acc
        | some cs =>
          let acc' := acc ++ cs.map normalizeComment
          let cursor' := page.cursor.getD ""
          if !(page.has_more.getD false) then Except.ok acc'
          else comments_loop client note_id xsec limit fuel cursor' acc'
    else Except.ok acc

/-- The `try` body of `get_note_comments` (adapter.py:571-623). -/
def get_note_comments_run (env : XhsEnv) (note_id : String) (limit : Nat)
    (xsec_token : String) (fuel : Nat) : Except String ToolResult :=
  match resolveNoteId env note_id xsec_token with
  | Except.error e => Except.error e
  | Except.ok (nid, tok) =>
    match env.get_session with
    | Except.error e => Except.error e
    | Except.ok session =>
      match comments_loop session.client nid tok limit fuel "" [] with
      | Except.error e => Except.error e
      | Except.ok comments =>
        Except.ok
          { success := true, data := ToolData.comments (comments.take limit),
            error := none,
            metadata :=
              [("total", MetaVal.natV comments.length),
               ("note_id", MetaVal.strV nid),
               ("platform", MetaVal.strV "xhs")] }

/-- `XhsSignalAdapter.get_note_comments` (adapter.py:554-630). -/
def get_note_comments (env : XhsEnv) (note_id : String) (limit : Nat)
    (xsec_token : String) (fuel : Nat) : ToolResult :=
  match get_note_comments_run env note_id limit xsec_token fuel with
  | Except.ok r => r
  | Except.error e => errToolResult e

/-- Is the character in `[a-zA-Z0-9]`? -/
def isAlnumAscii (c : Char) : Bool :=
  (c ≥ 'a' && c ≤ 'z') || (c ≥ 'A' && c ≤ 'Z') || (c ≥ '0' && c ≤ '9')

/-- `re.search(r"/user/profile/([a-zA-Z0-9]+)", s)` (adapter.py:650):
leftmost position where the literal prefix is followed by at least one
alphanumeric character; the greedy capture is the maximal run. -/
def findProfileId : List Char → Option (List Char)
  | [] => none
  | c :: rest =>
    let s := c :: rest
    if ("/user/profile/").toList.isPrefixOf s then
      let idc := (s.drop ("/user/profile/").length).takeWhile isAlnumAscii
      if idc.isEmpty then findProfileId rest else some idc
    else findProfileId rest

/-- The creator-id resolution of `get_creator_info` (adapter.py:648-652). -/
def extractCreatorId (creator_id : String) : String :=
  if strContains creator_id "xiaohongshu.com" then
    match findProfileId creator_id.toList with
    | some cs => String.mk cs
    | none => creator_id
  else creator_id

/-- Normalization of the creator payload (adapter.py:663-674). -/
def normalizeCreator (cid : String) (u : CreatorRaw) : CreatorData :=
  { user_id := u.user_id.getD cid
    nickname := u.nickname.getD ""
    desc := u.desc.getD ""
    gender := u.gender.getD ""
    ip_location := u.ip_location.getD ""
    follows := u.follows.getD 0
    fans := u.fans.getD 0
    interaction := u.interaction.getD 0
    level := u.level.getD []
    tags := u.tags.getD [] }

/-- The `try` body of `get_creator_info` (adapter.py:642-682). -/
def get_creator_info_run (env : XhsEnv) (creator_id : String) :
    Except String ToolResult :=
  let cid := extractCreatorId creator_id
  match env.get_session with
  | Except.error e => Except.error e
  | Except.ok session =>
    match session.client.get_creator_info cid with
    | Except.error e => Except.error e
    | Except.ok (some u) =>
      Except.ok
        { success := true, data := ToolData.creator (normalizeCreator cid u),
          error := none, metadata := [("platform", MetaVal.strV "xhs")] }
    | Except.ok none =>
      Except.ok
        { success := false, data := ToolData.noneD,
          error := some ("Creator not found: " ++ cid),
          metadata := [("platform", MetaVal.strV "xhs")] }

/-- `XhsSignalAdapter.get_creator_info` (adapter.py:632-689). -/
def get_creator_info (env : XhsEnv) (creator_id : String) : ToolResult :=
  match get_creator_info_run env creator_id with
  | Except.ok r => r
  | Except.error e => errToolResult e

/-! ## BrowserSessionManager (utils/browser_session.py) -/

/-- The `BrowserSession` dataclass (browser_session.py:18-30); opaque driver
objects (`playwright`, `browser`, `context`, `page`, `client`) are modelled
as handles. -/
structure BrowserSession where
  platform : String
  playwright : Nat
  browser : Nat
  context : Nat
  page : Nat
  client : Nat
  cookie_str : String
  cookie_dict : List (String × String)
  created_at : Nat
  is_logged_in : Bool := false
deriving DecidableEq, Repr

/-- The `self._sessions` dict of `BrowserSessionManager` as an association
list with dict update semantics. -/
def SessionsMap := List (String × BrowserSession)

instance : DecidableEq SessionsMap := by
  unfold SessionsMap
  infer_instance

/-- `self._sessions[platform] = session`: replace the entry if the key
exists, append otherwise. -/
def setSession : SessionsMap → String → BrowserSession → SessionsMap
  | [], p, s => [(p, s)]
  | (q, t) :: rest, p, s =>
    if q = p then (p, s) :: rest else (q, t) :: setSession rest p s

/-- `del self._sessions[platform]`. -/
def eraseSession : SessionsMap → String → SessionsMap
  | [], _ => []
  | (q, t) :: rest, p =>
    if q = p then rest else (q, t) :: eraseSession rest p

/-- Driver-resource releases performed by `_cleanup_session`
(browser_session.py:480-488): `session.browser.close()` and
`session.playwright.stop()`, identified by their handles. -/
inductive CloseEvent where
  | browserClose (handle : Nat)
  | playwrightStop (handle : Nat)
deriving DecidableEq, Repr

/-- `BrowserSessionManager._cleanup_session` (browser_session.py:477-489):
closes the stored session's browser and playwright (errors swallowed) and
removes it from the map. -/
def cleanup_session (st : SessionsMap) (platform : String) :
    SessionsMap × List CloseEvent :=
  match List.lookup platform st with
  | none => (st, [])
  | some s =>
    (eraseSession st platform,
     [CloseEvent.browserClose s.browser, CloseEvent.playwrightStop s.playwright])

/-- Environment of the session manager: the liveness probe
(`session.page.title()`, browser_session.py:63) and `_create_session`
(browser_session.py:72-177, a chain of driver/login I/O abstracted as one
fallible call; its exceptions propagate out of `get_session`). -/
structure SessionEnv where
  page_title : BrowserSession → Except String String
  create_session : String → Bool → Option String → Except String BrowserSession

/-- `BrowserSessionManager.get_session` (browser_session.py:51-70), run
under the per-platform lock.  Returns the result, the updated `_sessions`
map and the driver close events emitted during the call. -/
def get_session (env : SessionEnv) (st : SessionsMap) (platform : String)
    (headless : Bool) (cookies_dir : Option String) (force_new : Bool) :
    Except String BrowserSession × SessionsMap × List CloseEvent :=
  match List.lookup platform st, force_new with
  | some session, false =>
    (match env.page_title session with
     | Except.ok _ => (Except.ok session, st, [])
     | Except.error _ =>
       let cleaned := cleanup_session st platform
       match env.create_session platform headless cookies_dir with
       | Except.ok s2 => (Except.ok s2, setSession cleaned.1 platform s2, cleaned.2)
       | Except.error e => (Except.error e, cleaned.1, cleaned.2))
  | _, _ =>
    match env.create_session platform headless cookies_dir with
    | Except.ok s2 => (Except.ok s2, setSession st platform s2, [])
    | Except.error e => (Except.error e, st, [])

/-! ## _setup_xhs_client / _setup_douyin_client
(browser_session.py:220-296 and 390-475) -/

/-- Observable side effects of the login/setup step: starting the
interactive (QR) login flow (`login_obj.begin()`) and saving cookies to
file (`cookie_manager.save_cookie`). -/
inductive AuthEvent where
  | loginBegan
  | cookieSaved (platform : String)
deriving DecidableEq, Repr

/-- Environment of a `_setup_*_client` call: the constructed client handle,
the login probe `client.pong()`, the interactive login `login_obj.begin()`
and the cookie string read back from the browser context afterwards. -/
structure AuthEnv where
  client : Nat
  pong : Except String Bool
  login_begin : Except String Unit
  cookies_after : String

/-- The `if is_logged_in: ... save_cookie` tail of each `_setup_*_client`
(browser_session.py:289-294, 468-473). -/
def saveCookieEvents (env : AuthEnv) (platform : String) : List AuthEvent :=
  if env.cookies_after ≠ "" then [AuthEvent.cookieSaved platform] else []

/-- `BrowserSessionManager._setup_xhs_client` (browser_session.py:220-296):
probe with `client.pong()`; on failure return `(client, False)` when
headless, otherwise run the QR login and save cookies. -/
def setup_xhs_client (env : AuthEnv) (headless : Bool) :
    Except String (Nat × Bool) × List AuthEvent :=
  match env.pong with
  | Except.error e => (Except.error e, [])
  | Except.ok is_logged_in =>
    if is_logged_in then
      (Except.ok (env.client, true), saveCookieEvents env "xhs")
    else if headless then
      (Except.ok (env.client, false), [])
    else
      match env.login_begin with
      | Except.error e => (Except.error e, [AuthEvent.loginBegan])
      | Except.ok _ =>
        (Except.ok (env.client, true), AuthEvent.loginBegan :: saveCookieEvents env "xhs")

/-- `BrowserSessionManager._setup_douyin_client`
(browser_session.py:390-475): identical branch structure on the Douyin
client. -/
def setup_douyin_client (env : AuthEnv) (headless : Bool) :
    Except String (Nat × Bool) × List AuthEvent :=
  match env.pong with
  | Except.error e => (Except.error e, [])
  | Except.ok is_logged_in =>
    if is_logged_in then
      (Except.ok (env.client, true), saveCookieEvents env "douyin")
    else if headless then
      (Except.ok (env.client, false), [])
    else
      match env.login_begin with
      | Except.error e => (Except.error e, [AuthEvent.loginBegan])
      | Except.ok _ =>
        (Except.ok (env.client, true), AuthEvent.loginBegan :: saveCookieEvents env "douyin")

/-! ## CookieManager (utils/cookie_manager.py)

Cookie strings and file contents are handled character-by-character
(stripping, line splitting), so they are modelled as `List Char`. -/

/-- Split file content into lines, accumulator-passing; recognizes the
universal-newline terminators `\r\n`, `\r` and `\n` that Python's text-mode
file iteration splits on. -/
def splitLinesAux : Str → Str → List Str
  | [], acc => [acc.reverse]
  | '\r' :: '\n' :: rest, acc => acc.reverse :: splitLinesAux rest []
  | '\r' :: rest, acc => acc.reverse :: splitLinesAux rest []
  | '\n' :: rest, acc => acc.reverse :: splitLinesAux rest []
  | c :: rest, acc => splitLinesAux rest (c :: acc)

/-- All newline-terminated segments of the content. -/
def splitLines (content : Str) : List Str :=
  splitLinesAux content []

/-- The lines yielded by iterating a Python text file, each stripped of its
terminator (`line.rstrip('\n')` after universal-newline translation): a
trailing terminator produces no extra empty line. -/
def pyReadLines (content : Str) : List Str :=
  let ps := splitLines content
  if ps.getLast? = some [] then ps.dropLast else ps

/-- `"\n".join(lines)` (cookie_manager.py:216). -/
def joinLinesCore : List Str → Str
  | [] => []
  | [l] => l
  | l :: rest => l ++ '\n' :: joinLinesCore rest

/-- The content written by `save_cookie`: the joined lines plus a final
newline when there is at least one line (cookie_manager.py:215-218). -/
def joinLines (lines : List Str) : Str :=
  match lines with
  | [] => []
  | _ => joinLinesCore lines ++ ['\n']

/-- Does the line hold a cookie record
(`stripped and not stripped.startswith("#") and "=" in stripped`,
cookie_manager.py:79-85 and 198-200)? -/
def isCookieLine (line : Str) : Bool :=
  let t := pyStrip line
  if t.isEmpty then false
  else if t.head? = some '#' then false
  else t.contains '='

/-- `_load_cookies_from_file`'s line filter (cookie_manager.py:77-87): keep
the stripped form of every cookie line. -/
def loadLines (lines : List Str) : List Str :=
  lines.filterMap fun line =>
    if isCookieLine line then some (pyStrip line) else none

/-- `CookieManager._load_cookies_from_file` (cookie_manager.py:71-87);
`none` is a missing file. -/
def load_cookies_from_file (content : Option Str) : List Str :=
  match content with
  | none => []
  | some c => loadLines (pyReadLines c)

/-- The `platform_files` filename table (cookie_manager.py:56-69). -/
def platformFileTable : List (String × String) :=
  [("xhs", "xhs_cookies.txt"), ("xiaohongshu", "xhs_cookies.txt"),
   ("weibo", "weibo_cookies.txt"), ("wb", "weibo_cookies.txt"),
   ("douyin", "douyin_cookies.txt"), ("dy", "douyin_cookies.txt"),
   ("bilibili", "bilibili_cookies.txt"), ("bili", "bilibili_cookies.txt"),
   ("kuaishou", "kuaishou_cookies.txt"), ("ks", "kuaishou_cookies.txt"),
   ("tieba", "tieba_cookies.txt"), ("zhihu", "zhihu_cookies.txt")]

/-- `CookieManager._get_cookie_file` (cookie_manager.py:89-92):
`platform_files.get(platform.lower(), f"{platform}_cookies.txt")`.  Note
the fallback interpolates the platform name as given, not lowered. -/
def get_cookie_file (platform : String) : String :=
  (List.lookup (pyLower platform) platformFileTable).getD (platform ++ "_cookies.txt")

/-- State of one `CookieManager`: the cookie files on disk and the
per-platform cache `self._cache`. -/
structure CMState where
  files : String → Option Str
  cache : String → Option (List Str)

/-- `CookieManager.get_all_cookies` (cookie_manager.py:126-148): lowercase
the platform, consult the cache, otherwise load from file and cache. -/
def get_all_cookies (st : CMState) (platform : String) : List Str × CMState :=
  let pl := pyLower platform
  match st.cache pl with
  | some cs => (cs, st)
  | none =>
    let cs := load_cookies_from_file (st.files (get_cookie_file pl))
    (cs, { st with cache := fun k => if k = pl then some cs else st.cache k })

/-- `CookieManager.get_cookie` (cookie_manager.py:94-124).  `randPick`
models `random.choice`; `account_index` is a Python `int`, so it ranges
over `Int`. -/
def get_cookie (st : CMState) (platform : String) (account_index : Option Int)
    (random_select : Bool) (randPick : List Str → Str) : Str × CMState :=
  let loaded := get_all_cookies st platform
  let cookies := loaded.1
  if cookies.isEmpty then ([], loaded.2)
  else
    match account_index with
    | some i =>
      if 0 ≤ i ∧ i < (cookies.length : Int) then (cookies.getD i.toNat [], loaded.2)
      else ([], loaded.2)
    | none =>
      if random_select then (randPick cookies, loaded.2)
      else (cookies.getD 0 [], loaded.2)

/-- Indices of the cookie lines collected while reading the existing file
(`cookie_lines_indices`, cookie_manager.py:190-200), with the running
`enumerate` counter as accumulator. -/
def cookieIdxs : List Str → Nat → List Nat
  | [], _ => []
  | l :: rest, i =>
    if isCookieLine l then i :: cookieIdxs rest (i + 1) else cookieIdxs rest (i + 1)

/-- `digitChar` of one decimal digit. -/
def digitChar (n : Nat) : Char := Char.ofNat (48 + n)

/-- Decimal digits of a `Nat`, fuel-based so that it is structurally
recursive (`fuel > n` always suffices since `n / 10 < n` for `n ≥ 10`). -/
def natToStrAux : Nat → Nat → Str
  | 0, _ => []
  | fuel + 1, n =>
    if n < 10 then [digitChar n]
    else natToStrAux fuel (n / 10) ++ [digitChar (n % 10)]

/-- Decimal rendering of a `Nat` (the `{len(cookie_lines_indices) + 1}`
interpolation at cookie_manager.py:211). -/
def natToStr (n : Nat) : Str :=
  natToStrAux (n + 1) n

/-- The `# Account {n} - Auto-saved after login` comment line appended
before a new cookie record (cookie_manager.py:211). -/
def commentLine (n : Nat) : Str :=
  ("# Account ").toList ++ natToStr n ++ (" - Auto-saved after login").toList

/-- The lines read back from an existing cookie file before rewriting
(`save_cookie`'s read loop, cookie_manager.py:193-200); a missing file
yields no lines. -/
def readCookieFileLines (content : Option Str) : List Str :=
  match content with
  | none => []
  | some c => pyReadLines c

/-- The updated line list produced by `save_cookie` (cookie_manager.py:
202-212): replace the cookie line at `account_index` if one exists, else
append a blank separator (when the file does not end blank), a comment
line and the stripped record. -/
def save_cookie_newLines (lines : List Str) (t : Str) (account_index : Nat) : List Str :=
  let idxs := cookieIdxs lines 0
  if account_index < idxs.length then
    lines.set (idxs.getD account_index 0) t
  else
    let base :=
      if !lines.isEmpty && !(lines.getLastD []).isEmpty then lines ++ [[]]
      else lines
    base ++ [commentLine (idxs.length + 1), t]

/-- `CookieManager.save_cookie` (cookie_manager.py:162-229): reject blank
input; read the existing lines, update them (`save_cookie_newLines`),
write the file back and invalidate the platform's cache entry. -/
def save_cookie (st : CMState) (platform : String) (cookie_str : Str)
    (account_index : Nat) : Bool × CMState :=
  if cookie_str.isEmpty || (pyStrip cookie_str).isEmpty then (false, st)
  else
    let cookie_file := get_cookie_file platform
    let lines := readCookieFileLines (st.files cookie_file)
    let newLines := save_cookie_newLines lines (pyStrip cookie_str) account_index
    (true,
     { files := fun k => if k = cookie_file then some (joinLines newLines) else st.files k,
       cache := fun k => if k = pyLower platform then none else st.cache k })

/-- No character of the line is a newline terminator (true of every line
read back from a file, and required of lines written to one). -/
abbrev NoNl (l : Str) : Prop := ∀ c ∈ l, c ≠ '\n' ∧ c ≠ '\r'

/-! ## Concrete instances used to exercise the model

Small stub clients/environments playing the role of concrete platform
responses in witnesses and counterexamples. -/

/-- A client whose every call raises. -/
def clientErr : XhsClientModel :=
  { get_note_by_keyword := fun _ _ _ => Except.error "boom",
    get_note_by_id := fun _ _ _ => Except.error "boom",
    get_note_comments := fun _ _ _ => Except.error "boom",
    get_creator_info := fun _ => Except.error "boom" }

/-- An environment whose session acquisition raises. -/
def envErr : XhsEnv :=
  { get_session := Except.error "boom",
    get_cookie := Except.ok "",
    headless := true,
    parse_note_url := fun _ => Except.error "boom",
    save_json := Except.error "boom" }

/-- A client for which keyword "a" raises on every page while any other
keyword returns one note and no further pages. -/
def clientC2 : XhsClientModel :=
  { get_note_by_keyword := fun kw _ _ =>
      if kw = "a" then Except.error "boom"
      else Except.ok (some { items := some [{ id := some "n1" }], has_more := some false }),
    get_note_by_id := fun _ _ _ => Except.error "unused",
    get_note_comments := fun _ _ _ => Except.error "unused",
    get_creator_info := fun _ => Except.error "unused" }

/-- Environment with a logged-in session over `clientC2`. -/
def envC2 : XhsEnv :=
  { get_session := Except.ok { is_logged_in := true, client := clientC2 },
    get_cookie := Except.ok "",
    headless := true,
    parse_note_url := fun _ => Except.error "unused",
    save_json := Except.error "unused" }

/-- Environment with a logged-in session over a never-called client. -/
def env9 : XhsEnv :=
  { get_session := Except.ok { is_logged_in := true, client := clientErr },
    get_cookie := Except.ok "",
    headless := true,
    parse_note_url := fun _ => Except.error "unused",
    save_json := Except.error "unused" }

/-- A client returning a single comments page holding two comments. -/
def clientC10 : XhsClientModel :=
  { get_note_by_keyword := fun _ _ _ => Except.error "unused",
    get_note_by_id := fun _ _ _ => Except.error "unused",
    get_note_comments := fun _ _ _ =>
      Except.ok (some { comments := some [{ id := some "c1" }, { id := some "c2" }],
                        cursor := some "", has_more := some false }),
    get_creator_info := fun _ => Except.error "unused" }

/-- Environment with a logged-in session over `clientC10`. -/
def envC10 : XhsEnv :=
  { get_session := Except.ok { is_logged_in := true, client := clientC10 },
    get_cookie := Except.ok "",
    headless := true,
    parse_note_url := fun _ => Except.error "unused",
    save_json := Except.error "unused" }

/-- A stored browser session. -/
def sessA : BrowserSession :=
  { platform := "xhs", playwright := 1, browser := 2, context := 3, page := 4,
    client := 5, cookie_str := "", cookie_dict := [], created_at := 0,
    is_logged_in := true }

/-- The replacement session produced by `_create_session`. -/
def sessB : BrowserSession :=
  { platform := "xhs", playwright := 11, browser := 12, context := 13, page := 14,
    client := 15, cookie_str := "", cookie_dict := [], created_at := 1,
    is_logged_in := true }

/-- Session environment whose liveness probe succeeds and whose creation
raises (creation is never reached on the reuse path). -/
def envSessOk : SessionEnv :=
  { page_title := fun _ => Except.ok "Xiaohongshu",
    create_session := fun _ _ _ => Except.error "SessionCreationError" }

/-- Session environment whose creation succeeds with `sessB`. -/
def envSessNew : SessionEnv :=
  { page_title := fun _ => Except.ok "Xiaohongshu",
    create_session := fun _ _ _ => Except.ok sessB }

/-- Auth environment whose login probe reports not-logged-in. -/
def envAuthFail : AuthEnv :=
  { client := 7, pong := Except.ok false, login_begin := Except.ok (),
    cookies_after := "" }

/-- Cookie-manager state with no files and an empty cache. -/
def stEmpty : CMState :=
  { files := fun _ => none, cache := fun _ => none }

/-- Cookie-manager state whose xhs cookie file holds one record. -/
def stC8 : CMState :=
  { files := fun n => if n = "xhs_cookies.txt" then some ("a=1\n").toList else none,
    cache := fun _ => none }

/-! # Theorems

First the supporting lemmas about the pagination loop and the facade,
then one theorem per claim (with witnesses and counterexamples). -/

/-- The inner `for note in notes` loop never grows the accumulator past the
per-keyword limit. -/
theorem appendNotes_length_le (kw : String) (per : Nat) :
    ∀ (notes : List NoteRaw) (acc : List NoteItem), acc.length ≤ per →
      (appendNotes kw per acc notes).length ≤ per := by
  intro notes
  induction notes with
  | nil => intro acc h; simpa [appendNotes] using h
  | cons n rest ih =>
    intro acc h
    by_cases hle : per ≤ acc.length
    · simpa [appendNotes, hle] using h
    · rw [appendNotes, if_neg hle]
      exact ih _ (by simp; omega)

/-- The per-keyword pagination loop never collects more than the
per-keyword limit, for any fuel, page and valid accumulator. -/
theorem searchKeywordLoop_length_le (client : XhsClientModel) (kw : String)
    (sort : SearchSortType) (per : Nat) :
    ∀ (fuel page : Nat) (acc : List NoteItem), acc.length ≤ per →
      (searchKeywordLoop client kw sort per fuel page acc).length ≤ per := by
  intro fuel
  induction fuel with
  | zero => intro page acc h; simpa [searchKeywordLoop] using h
  | succ fuel ih =>
    intro page acc h
    rw [searchKeywordLoop]
    by_cases hlt : acc.length < per
    · rw [if_pos hlt]
      cases hc : client.get_note_by_keyword kw page sort with
      | error e => simpa using h
      | ok ro =>
        cases ro with
        | none => simpa using h
        | some response =>
          simp only
          by_cases hemp : (response.items.getD []).isEmpty
          · simpa [hemp] using h
          · rw [if_neg (by simp [hemp])]
            by_cases hm : response.has_more.getD false
            · simp only [hm, Bool.not_true, Bool.false_eq_true, if_false]
              exact ih _ _ (appendNotes_length_le _ _ _ _ h)
            · simp only [hm, Bool.not_false, if_true]
              exact appendNotes_length_le _ _ _ _ h
    · simpa [if_neg hlt] using h

/-- Shape of a successful `search_notes_core` result: success, no error,
the data is the concatenated per-keyword blocks truncated to the total
limit, and the metadata carries no error entry. -/
theorem search_notes_core_ok_shape (env : XhsEnv) (session : XhsSessionModel)
    (keywords : String) (limit : Nat) (sort_by : String) (sr : Bool) (fuel : Nat)
    (r : ToolResult)
    (h : search_notes_core env session keywords limit sort_by sr fuel = Except.ok r) :
    r.success = true ∧ r.error = none ∧
    r.data = ToolData.notes
      ((searchAllKeywords session.client (sortTypeOf sort_by)
        (if (keywordListOf keywords).isEmpty then limit
         else limit / (keywordListOf keywords).length)
        fuel (keywordListOf keywords)).take limit) ∧
    (∀ p ∈ r.metadata, p.1 ≠ "error") := by
  simp only [search_notes_core] at h
  split at h
  · exact absurd h (by simp)
  · rw [Except.ok.injEq] at h
    subst h
    refine ⟨rfl, rfl, rfl, ?_⟩
    intro p hp
    simp only [List.mem_cons, List.not_mem_nil, or_false] at hp
    rcases hp with rfl | rfl | rfl | rfl <;> dsimp only <;> decide

/-- A successful `search_notes_run` result is either the early no-cookie
result or a successful core result. -/
theorem search_notes_run_ok_cases (env : XhsEnv) (keywords : String) (limit : Nat)
    (sort_by : String) (sr : Bool) (fuel : Nat) (r : ToolResult)
    (h : search_notes_run env keywords limit sort_by sr fuel = Except.ok r) :
    r = noCookieResult ∨
    ∃ session, env.get_session = Except.ok session ∧
      search_notes_core env session keywords limit sort_by sr fuel = Except.ok r := by
  unfold search_notes_run at h
  split at h
  · exact absurd h (by simp)
  · rename_i session hs
    split at h
    · split at h
      · exact absurd h (by simp)
      · split at h
        · rw [Except.ok.injEq] at h
          exact Or.inl h.symm
        · exact Or.inr ⟨session, hs, h⟩
    · exact Or.inr ⟨session, hs, h⟩

/-- C1: for every `search_notes` call with total limit `N` and `k`
comma-separated keywords, the returned data list has length at most `N`,
and each keyword's pagination loop contributes at most `N / k` items
(integer division), for any client behaviour and any fuel. -/
theorem search_notes_pagination_bound (env : XhsEnv) (keywords : String)
    (limit : Nat) (sort_by : String) (sr : Bool) (fuel : Nat) :
    toolDataLength (search_notes env keywords limit sort_by sr fuel).data ≤ limit ∧
    ∀ (client : XhsClientModel) (kw : String),
      (searchKeywordLoop client kw (sortTypeOf sort_by)
          (limit / (keywordListOf keywords).length) fuel 1 []).length
        ≤ limit / (keywordListOf keywords).length := by
  constructor
  · unfold search_notes
    cases hrun : search_notes_run env keywords limit sort_by sr fuel with
    | error e => simp [errToolResult, toolDataLength]
    | ok r =>
      rcases search_notes_run_ok_cases env keywords limit sort_by sr fuel r hrun with
        rfl | ⟨session, _, hcore⟩
      · simp [noCookieResult, toolDataLength]
      · obtain ⟨-, -, hdata, -⟩ :=
          search_notes_core_ok_shape env session keywords limit sort_by sr fuel r hcore
        rw [hdata]
        simp [toolDataLength, List.length_take]
  · intro client kw
    exact searchKeywordLoop_length_le client kw _ _ fuel 1 [] (by simp)

/-- With a per-keyword limit of `0` the pagination loop collects nothing,
whatever the client, fuel or page. -/
theorem searchKeywordLoop_zero_per (client : XhsClientModel) (kw : String)
    (sort : SearchSortType) (fuel page : Nat) :
    searchKeywordLoop client kw sort 0 fuel page [] = [] := by
  cases fuel <;> simp [searchKeywordLoop]

/-- With a per-keyword limit of `0` the whole keyword sweep is empty. -/
theorem searchAllKeywords_zero_limit (client : XhsClientModel)
    (sort : SearchSortType) (fuel : Nat) :
    ∀ kws : List String, searchAllKeywords client sort 0 fuel kws = [] := by
  intro kws
  induction kws with
  | nil => rfl
  | cons kw rest ih =>
    simp [searchAllKeywords, searchKeywordLoop_zero_per, ih]

/-- When the session is acquired and logged in, `search_notes` is the core
loop's result (converted by the outer exception boundary). -/
theorem search_notes_eq_of_core (env : XhsEnv) (keywords : String) (limit : Nat)
    (sort_by : String) (sr : Bool) (fuel : Nat) (session : XhsSessionModel)
    (hs : env.get_session = Except.ok session)
    (hl : session.is_logged_in = true) :
    search_notes env keywords limit sort_by sr fuel =
      (match search_notes_core env session keywords limit sort_by sr fuel with
       | Except.ok r => r
       | Except.error e => errToolResult e) := by
  unfold search_notes search_notes_run
  rw [hs]
  simp [hl]

/-- With `save_results = False` no saving occurs and the core result is the
success envelope around the keyword sweep. -/
theorem search_notes_core_no_save (env : XhsEnv) (session : XhsSessionModel)
    (keywords : String) (limit : Nat) (sort_by : String) (fuel : Nat) :
    search_notes_core env session keywords limit sort_by false fuel =
      Except.ok
        { success := true,
          data := ToolData.notes
            ((searchAllKeywords session.client (sortTypeOf sort_by)
              (if (keywordListOf keywords).isEmpty then limit
               else limit / (keywordListOf keywords).length)
              fuel (keywordListOf keywords)).take limit),
          error := none,
          metadata :=
            [("total", MetaVal.natV
                ((searchAllKeywords session.client (sortTypeOf sort_by)
                  (if (keywordListOf keywords).isEmpty then limit
                   else limit / (keywordListOf keywords).length)
                  fuel (keywordListOf keywords)).take limit).length),
             ("keywords", MetaVal.listV (keywordListOf keywords)),
             ("platform", MetaVal.strV "xhs"),
             ("saved_path", MetaVal.noneV)] } := by
  simp [search_notes_core]

/-- A keyword whose very first page request raises collects nothing: the
inner `except` catches the exception and breaks only that keyword's loop. -/
theorem searchKeywordLoop_error_first (client : XhsClientModel) (kw : String)
    (sort : SearchSortType) (per fuel : Nat) (e : String)
    (h : client.get_note_by_keyword kw 1 sort = Except.error e) :
    searchKeywordLoop client kw sort per fuel 1 [] = [] := by
  cases fuel with
  | zero => simp [searchKeywordLoop]
  | succ fuel =>
    rw [searchKeywordLoop]
    by_cases hp : (0 : Nat) < per
    · rw [if_pos (by simpa using hp), h]
    · rw [if_neg (by simpa using hp)]

/-- C3: every facade operation (`search_notes`, `get_note_detail`,
`get_note_comments`, `get_creator_info`) converts a raised exception into a
`ToolResult` with `success = false` and the message in `error`; no exception
escapes the facade boundary. -/
theorem facade_exception_boundary :
    (∀ (env : XhsEnv) (keywords : String) (limit : Nat) (sort_by : String)
        (sr : Bool) (fuel : Nat) (e : String),
      search_notes_run env keywords limit sort_by sr fuel = Except.error e →
      search_notes env keywords limit sort_by sr fuel = errToolResult e) ∧
    (∀ (env : XhsEnv) (note_id xsec : String) (e : String),
      get_note_detail_run env note_id xsec = Except.error e →
      get_note_detail env note_id xsec = errToolResult e) ∧
    (∀ (env : XhsEnv) (note_id : String) (limit : Nat) (xsec : String)
        (fuel : Nat) (e : String),
      get_note_comments_run env note_id limit xsec fuel = Except.error e →
      get_note_comments env note_id limit xsec fuel = errToolResult e) ∧
    (∀ (env : XhsEnv) (creator_id : String) (e : String),
      get_creator_info_run env creator_id = Except.error e →
      get_creator_info env creator_id = errToolResult e) := by
  refine ⟨?_, ?_, ?_, ?_⟩
  · intro env keywords limit sort_by sr fuel e h
    unfold search_notes
    rw [h]
  · intro env note_id xsec e h
    unfold get_note_detail
    rw [h]
  · intro env note_id limit xsec fuel e h
    unfold get_note_comments
    rw [h]
  · intro env creator_id e h
    unfold get_creator_info
    rw [h]

/-- Witness for C3: with a session acquisition that raises "boom", all four
operations return the converted failure `ToolResult`. -/
theorem facade_exception_boundary_witness :
    search_notes_run envErr "k" 5 "general" false 1 = Except.error "boom" ∧
    search_notes envErr "k" 5 "general" false 1 = errToolResult "boom" ∧
    get_note_detail_run envErr "n" "" = Except.error "boom" ∧
    get_note_detail envErr "n" "" = errToolResult "boom" ∧
    get_note_comments_run envErr "n" 5 "" 1 = Except.error "boom" ∧
    get_note_comments envErr "n" 5 "" 1 = errToolResult "boom" ∧
    get_creator_info_run envErr "c" = Except.error "boom" ∧
    get_creator_info envErr "c" = errToolResult "boom" :=
  ⟨by rfl,
   facade_exception_boundary.1 envErr "k" 5 "general" false 1 "boom" (by rfl),
   by rfl,
   facade_exception_boundary.2.1 envErr "n" "" "boom" (by rfl),
   by rfl,
   facade_exception_boundary.2.2.1 envErr "n" 5 "" 1 "boom" (by rfl),
   by rfl,
   facade_exception_boundary.2.2.2 envErr "c" "boom" (by rfl)⟩

/-- C9: when the number of comma-separated keywords exceeds the total
limit (with limit at least 1), the per-keyword limit `limit // k` is 0, no
inner pagination loop collects anything (for any client), and the call
returns a success `ToolResult` with an empty data list. -/
theorem search_notes_keywords_exceed_limit (env : XhsEnv) (keywords : String)
    (limit : Nat) (sort_by : String) (sr : Bool) (fuel : Nat)
    (session : XhsSessionModel)
    (hs : env.get_session = Except.ok session)
    (hl : session.is_logged_in = true)
    (_h1 : 1 ≤ limit)
    (hk : limit < (keywordListOf keywords).length) :
    limit / (keywordListOf keywords).length = 0 ∧
    (∀ (client : XhsClientModel) (kw : String),
      searchKeywordLoop client kw (sortTypeOf sort_by)
        (limit / (keywordListOf keywords).length) fuel 1 [] = []) ∧
    (search_notes env keywords limit sort_by sr fuel).success = true ∧
    (search_notes env keywords limit sort_by sr fuel).data = ToolData.notes [] := by
  have hdiv : limit / (keywordListOf keywords).length = 0 := Nat.div_eq_of_lt hk
  have hne : (keywordListOf keywords).isEmpty = false := by
    cases hkw : keywordListOf keywords with
    | nil => rw [hkw] at hk; simp at hk
    | cons a l => simp
  have hcore : search_notes_core env session keywords limit sort_by sr fuel =
      Except.ok
        { success := true, data := ToolData.notes [], error := none,
          metadata :=
            [("total", MetaVal.natV 0),
             ("keywords", MetaVal.listV (keywordListOf keywords)),
             ("platform", MetaVal.strV "xhs"),
             ("saved_path", MetaVal.noneV)] } := by
    simp [search_notes_core, hne, hdiv, searchAllKeywords_zero_limit]
  rw [search_notes_eq_of_core env keywords limit sort_by sr fuel session hs hl]
  rw [hcore]
  refine ⟨hdiv, ?_, rfl, rfl⟩
  intro client kw
  rw [hdiv]
  exact searchKeywordLoop_zero_per client kw _ fuel 1

/-- Witness for C9: two keywords against a total limit of 1 yield an empty
success result without any client call. -/
theorem search_notes_keywords_exceed_limit_witness :
    env9.get_session = Except.ok { is_logged_in := true, client := clientErr } ∧
    (1 : Nat) ≤ 1 ∧ 1 < (keywordListOf "a,b").length ∧
    ((1 : Nat) / (keywordListOf "a,b").length = 0 ∧
     (∀ (client : XhsClientModel) (kw : String),
       searchKeywordLoop client kw (sortTypeOf "general")
         (1 / (keywordListOf "a,b").length) 4 1 [] = []) ∧
     (search_notes env9 "a,b" 1 "general" false 4).success = true ∧
     (search_notes env9 "a,b" 1 "general" false 4).data = ToolData.notes []) :=
  ⟨rfl, by decide, by decide,
   search_notes_keywords_exceed_limit env9 "a,b" 1 "general" false 4
     { is_logged_in := true, client := clientErr } rfl rfl (by decide) (by decide)⟩

/-- C2 (amended): a client exception for one keyword terminates only that
keyword's inner loop and the aggregate still holds every other keyword's
results, but the error is merely printed and discarded — the returned
`ToolResult` has `success = true`, `error = None` and no error entry in its
metadata. -/
theorem search_notes_keyword_error_isolated (env : XhsEnv) (keywords : String)
    (limit : Nat) (sort_by : String) (fuel : Nat) (session : XhsSessionModel)
    (hs : env.get_session = Except.ok session)
    (hl : session.is_logged_in = true) :
    (search_notes env keywords limit sort_by false fuel).success = true ∧
    (search_notes env keywords limit sort_by false fuel).error = none ∧
    (∀ p ∈ (search_notes env keywords limit sort_by false fuel).metadata,
      p.1 ≠ "error") ∧
    (search_notes env keywords limit sort_by false fuel).data =
      ToolData.notes
        ((searchAllKeywords session.client (sortTypeOf sort_by)
          (if (keywordListOf keywords).isEmpty then limit
           else limit / (keywordListOf keywords).length)
          fuel (keywordListOf keywords)).take limit) ∧
    (∀ (kw e' : String),
      session.client.get_note_by_keyword kw 1 (sortTypeOf sort_by) = Except.error e' →
      searchKeywordLoop session.client kw (sortTypeOf sort_by)
        (if (keywordListOf keywords).isEmpty then limit
         else limit / (keywordListOf keywords).length) fuel 1 [] = []) := by
  rw [search_notes_eq_of_core env keywords limit sort_by false fuel session hs hl]
  rw [search_notes_core_no_save]
  refine ⟨rfl, rfl, ?_, rfl, ?_⟩
  · intro p hp
    simp only [List.mem_cons, List.not_mem_nil, or_false] at hp
    rcases hp with rfl | rfl | rfl | rfl <;> dsimp only <;> decide
  · intro kw e' h
    exact searchKeywordLoop_error_first session.client kw _ _ fuel e' h

/-- Witness for C2's amended theorem: keyword "a" raises, keyword "b"
returns one note; the aggregate keeps "b"'s note, succeeds, and carries no
error anywhere. -/
theorem search_notes_keyword_error_isolated_witness :
    envC2.get_session = Except.ok { is_logged_in := true, client := clientC2 } ∧
    ((search_notes envC2 "a,b" 2 "general" false 3).success = true ∧
     (search_notes envC2 "a,b" 2 "general" false 3).error = none ∧
     (∀ p ∈ (search_notes envC2 "a,b" 2 "general" false 3).metadata,
       p.1 ≠ "error") ∧
     (search_notes envC2 "a,b" 2 "general" false 3).data =
       ToolData.notes
         ((searchAllKeywords clientC2 (sortTypeOf "general")
           (if (keywordListOf "a,b").isEmpty then 2
            else 2 / (keywordListOf "a,b").length)
           3 (keywordListOf "a,b")).take 2) ∧
     (∀ (kw e' : String),
       clientC2.get_note_by_keyword kw 1 (sortTypeOf "general") = Except.error e' →
       searchKeywordLoop clientC2 kw (sortTypeOf "general")
         (if (keywordListOf "a,b").isEmpty then 2
          else 2 / (keywordListOf "a,b").length) 3 1 [] = [])) :=
  ⟨rfl,
   search_notes_keyword_error_isolated envC2 "a,b" 2 "general" 3
     { is_logged_in := true, client := clientC2 } rfl rfl⟩

/-- C2 (counterexample): at the concrete input where keyword "a" raises
"boom" and keyword "b" succeeds, the returned `ToolResult` is a success
envelope holding only "b"'s note — the failing keyword's error appears
neither in `error` (which is `None`) nor under any metadata key, refuting
the claim that it is surfaced via `ToolResult.metadata` or
`ToolResult.error`. -/
theorem search_notes_error_not_surfaced_cex :
    clientC2.get_note_by_keyword "a" 1 (sortTypeOf "general") = Except.error "boom" ∧
    search_notes envC2 "a,b" 2 "general" false 3 =
      { success := true,
        data := ToolData.notes
          [{ note_id := "n1", title := "", desc := "", author := "", author_id := "",
             liked_count := 0, collected_count := 0, comment_count := 0,
             note_type := "", keyword := "b", xsec_token := "" }],
        error := none,
        metadata :=
          [("total", MetaVal.natV 1),
           ("keywords", MetaVal.listV ["a", "b"]),
           ("platform", MetaVal.strV "xhs"),
           ("saved_path", MetaVal.noneV)] } ∧
    (search_notes envC2 "a,b" 2 "general" false 3).error = none ∧
    List.lookup "error" (search_notes envC2 "a,b" 2 "general" false 3).metadata = none := by
  refine ⟨rfl, by decide, by decide, by decide⟩

/-- C10: `get_note_comments` appends each page in full before re-checking
the limit, truncates the returned data to `limit`, but reports the
pre-truncation count in `metadata["total"]`; at a concrete input the
reported total (2) strictly exceeds both the limit (1) and the returned
data's length (1). -/
theorem get_note_comments_total_overcount :
    (∀ (env : XhsEnv) (note_id : String) (limit : Nat) (xsec : String)
        (fuel : Nat) (nid tok : String) (session : XhsSessionModel)
        (cs : List CommentItem),
      resolveNoteId env note_id xsec = Except.ok (nid, tok) →
      env.get_session = Except.ok session →
      comments_loop session.client nid tok limit fuel "" [] = Except.ok cs →
      (get_note_comments env note_id limit xsec fuel).data =
          ToolData.comments (cs.take limit) ∧
        List.lookup "total" (get_note_comments env note_id limit xsec fuel).metadata =
          some (MetaVal.natV cs.length) ∧
        toolDataLength (get_note_comments env note_id limit xsec fuel).data ≤ limit) ∧
    (List.lookup "total" (get_note_comments envC10 "n" 1 "" 2).metadata =
        some (MetaVal.natV 2) ∧
      toolDataLength (get_note_comments envC10 "n" 1 "" 2).data = 1 ∧
      (1 : Nat) < 2) := by
  constructor
  · intro env note_id limit xsec fuel nid tok session cs h1 h2 h3
    simp only [get_note_comments, get_note_comments_run, h1, h2, h3]
    refine ⟨by trivial, by simp [List.lookup], by simp [toolDataLength, List.length_take]⟩
  · refine ⟨by decide, by decide, by decide⟩

/-- Witness for C10's general part: at the concrete two-comment page the
hypotheses hold and the general conclusions follow by instantiation. -/
theorem get_note_comments_total_overcount_witness :
    resolveNoteId envC10 "n" "" = Except.ok ("n", "") ∧
    envC10.get_session = Except.ok { is_logged_in := true, client := clientC10 } ∧
    comments_loop clientC10 "n" "" 1 2 "" [] =
      Except.ok
        [{ comment_id := "c1", content := "", author := "", author_id := "",
           liked_count := 0, create_time := "", sub_comment_count := 0 },
         { comment_id := "c2", content := "", author := "", author_id := "",
           liked_count := 0, create_time := "", sub_comment_count := 0 }] ∧
    ((get_note_comments envC10 "n" 1 "" 2).data =
        ToolData.comments
          ([{ comment_id := "c1", content := "", author := "", author_id := "",
              liked_count := 0, create_time := "", sub_comment_count := 0 },
            { comment_id := "c2", content := "", author := "", author_id := "",
              liked_count := 0, create_time := "", sub_comment_count := 0 }].take 1) ∧
      List.lookup "total" (get_note_comments envC10 "n" 1 "" 2).metadata =
        some (MetaVal.natV 2) ∧
      toolDataLength (get_note_comments envC10 "n" 1 "" 2).data ≤ 1) :=
  ⟨by rfl, rfl, by rfl,
   by
    have h := get_note_comments_total_overcount.1 envC10 "n" 1 "" 2 "n" ""
      { is_logged_in := true, client := clientC10 }
      [{ comment_id := "c1", content := "", author := "", author_id := "",
         liked_count := 0, create_time := "", sub_comment_count := 0 },
       { comment_id := "c2", content := "", author := "", author_id := "",
         liked_count := 0, create_time := "", sub_comment_count := 0 }]
      (by rfl) rfl (by rfl)
    simpa using h⟩

/-- C4: for a stored session whose liveness probe (reading the page title)
succeeds, two sequential `get_session` calls without `force_new` both
return the stored session unchanged and leave the session map (and close
events) untouched. -/
theorem get_session_idempotent_reuse (env : SessionEnv) (st : SessionsMap)
    (platform : String) (headless : Bool) (cookies_dir : Option String)
    (session : BrowserSession) (title : String)
    (h1 : List.lookup platform st = some session)
    (h2 : env.page_title session = Except.ok title) :
    get_session env st platform headless cookies_dir false =
      (Except.ok session, st, []) ∧
    get_session env
        (get_session env st platform headless cookies_dir false).2.1
        platform headless cookies_dir false =
      (Except.ok session, st, []) := by
  have hfirst : get_session env st platform headless cookies_dir false =
      (Except.ok session, st, []) := by
    unfold get_session
    rw [h1]
    dsimp only
    rw [h2]
  exact ⟨hfirst, by rw [hfirst]; exact hfirst⟩

/-- Witness for C4: a concrete map holding one healthy xhs session is
reused unchanged by two successive calls. -/
theorem get_session_idempotent_reuse_witness :
    List.lookup "xhs" [("xhs", sessA)] = some sessA ∧
    envSessOk.page_title sessA = Except.ok "Xiaohongshu" ∧
    (get_session envSessOk [("xhs", sessA)] "xhs" true none false =
        (Except.ok sessA, [("xhs", sessA)], []) ∧
      get_session envSessOk
          (get_session envSessOk [("xhs", sessA)] "xhs" true none false).2.1
          "xhs" true none false =
        (Except.ok sessA, [("xhs", sessA)], [])) :=
  ⟨by rfl, rfl,
   get_session_idempotent_reuse envSessOk [("xhs", sessA)] "xhs" true none
     sessA "Xiaohongshu" (by rfl) rfl⟩

/-- C5 (code bug): `get_session` with `force_new = True` replaces the
stored session by overwriting the map entry without ever calling
`_cleanup_session` — no `browser.close()` / `playwright.stop()` event is
emitted for the displaced session, which leaks its driver resources,
contradicting the documented contract that replacement closes the
displaced driver before returning.  (On the probe-failure path, by
contrast, the displaced session is closed.) -/
theorem get_session_forceNew_leaks_displaced :
    get_session envSessNew [("xhs", sessA)] "xhs" true none true =
      (Except.ok sessB, [("xhs", sessB)], []) ∧
    cleanup_session [("xhs", sessA)] "xhs" =
      ([], [CloseEvent.browserClose sessA.browser,
            CloseEvent.playwrightStop sessA.playwright]) := by
  refine ⟨by rfl, by rfl⟩

/-- C7: when the login probe (`client.pong`) reports failure and the
browser is headless, both the XHS and the Douyin setup return
`is_logged_in = false` without starting the interactive login flow; and on
any run of either setup, the interactive login event occurs only when
headless is false. -/
theorem headless_login_gate :
    (∀ env : AuthEnv, env.pong = Except.ok false →
      setup_xhs_client env true = (Except.ok (env.client, false), []) ∧
      setup_douyin_client env true = (Except.ok (env.client, false), [])) ∧
    (∀ (env : AuthEnv) (headless : Bool),
      AuthEvent.loginBegan ∈ (setup_xhs_client env headless).2 → headless = false) ∧
    (∀ (env : AuthEnv) (headless : Bool),
      AuthEvent.loginBegan ∈ (setup_douyin_client env headless).2 → headless = false) := by
  have hsave : ∀ (env : AuthEnv) (p : String),
      AuthEvent.loginBegan ∉ saveCookieEvents env p := by
    intro env p
    unfold saveCookieEvents
    split <;> simp
  refine ⟨?_, ?_, ?_⟩
  · intro env hp
    refine ⟨?_, ?_⟩
    · unfold setup_xhs_client
      rw [hp]
      simp
    · unfold setup_douyin_client
      rw [hp]
      simp
  · intro env headless hm
    unfold setup_xhs_client at hm
    cases hpong : env.pong with
    | error e => rw [hpong] at hm; simp at hm
    | ok b =>
      rw [hpong] at hm
      by_cases hb : b
      · subst hb; simp at hm; exact absurd hm (hsave env "xhs")
      · simp only [Bool.not_eq_true] at hb
        subst hb
        by_cases hh : headless
        · subst hh; simp at hm
        · simp only [Bool.not_eq_true] at hh; exact hh
  · intro env headless hm
    unfold setup_douyin_client at hm
    cases hpong : env.pong with
    | error e => rw [hpong] at hm; simp at hm
    | ok b =>
      rw [hpong] at hm
      by_cases hb : b
      · subst hb; simp at hm; exact absurd hm (hsave env "douyin")
      · simp only [Bool.not_eq_true] at hb
        subst hb
        by_cases hh : headless
        · subst hh; simp at hm
        · simp only [Bool.not_eq_true] at hh; exact hh

/-- Witness for C7: a concrete failing probe in headless mode yields
`is_logged_in = false` with no events for both platforms. -/
theorem headless_login_gate_witness :
    envAuthFail.pong = Except.ok false ∧
    (setup_xhs_client envAuthFail true = (Except.ok (envAuthFail.client, false), []) ∧
     setup_douyin_client envAuthFail true = (Except.ok (envAuthFail.client, false), [])) :=
  ⟨rfl, headless_login_gate.1 envAuthFail rfl⟩

/-! ## Cookie store lemmas -/

/-- Unfolding lemma for `dropTrailingSpaces` on a cons cell. -/
theorem dts_cons (c : Char) (rest : Str) :
    dropTrailingSpaces (c :: rest) =
      if (dropTrailingSpaces rest).isEmpty && isPySpace c then []
      else c :: dropTrailingSpaces rest := rfl

/-- `dropWhile` is idempotent. -/
theorem dropWhile_dropWhile (p : Char → Bool) (l : Str) :
    (l.dropWhile p).dropWhile p = l.dropWhile p := by
  induction l with
  | nil => rfl
  | cons a l ih => by_cases h : p a <;> simp [List.dropWhile_cons, h, ih]

/-- The head surviving a `dropWhile` fails the predicate. -/
theorem head?_dropWhile_not (p : Char → Bool) :
    ∀ (l : Str) (c : Char), (l.dropWhile p).head? = some c → p c = false := by
  intro l
  induction l with
  | nil => intro c hc; simp at hc
  | cons a l ih =>
    intro c hc
    by_cases h : p a
    · rw [List.dropWhile_cons, if_pos h] at hc
      exact ih c hc
    · rw [List.dropWhile_cons, if_neg h] at hc
      simp only [List.head?_cons, Option.some.injEq] at hc
      subst hc
      simpa using h

/-- Dropping trailing whitespace is idempotent. -/
theorem dropTrailingSpaces_idem (l : Str) :
    dropTrailingSpaces (dropTrailingSpaces l) = dropTrailingSpaces l := by
  induction l with
  | nil => rfl
  | cons c rest ih =>
    rw [dts_cons]
    by_cases h : (dropTrailingSpaces rest).isEmpty && isPySpace c
    · rw [if_pos h]; rfl
    · rw [if_neg h, dts_cons, ih, if_neg h]

/-- Dropping trailing whitespace preserves the head when nonempty. -/
theorem dts_head (m : Str) (c : Char) (r : Str)
    (h : dropTrailingSpaces m = c :: r) : m.head? = some c := by
  cases m with
  | nil => simp [dropTrailingSpaces] at h
  | cons a m' =>
    rw [dts_cons] at h
    split at h
    · cases h
    · injection h with h1 _
      rw [h1]
      rfl

/-- `str.strip()` is idempotent. -/
theorem pyStrip_idem (s : Str) : pyStrip (pyStrip s) = pyStrip s := by
  unfold pyStrip
  cases hm : dropTrailingSpaces (s.dropWhile isPySpace) with
  | nil => simp [dropTrailingSpaces]
  | cons c r =>
    have hc : isPySpace c = false :=
      head?_dropWhile_not isPySpace s c (dts_head _ _ _ hm)
    rw [List.dropWhile_cons, if_neg (by simp [hc])]
    rw [← hm, dropTrailingSpaces_idem]

/-- Stripping a string that starts with a non-space character keeps that
character in front. -/
theorem pyStrip_cons_not_space (c : Char) (xs : Str) (h : isPySpace c = false) :
    pyStrip (c :: xs) = c :: dropTrailingSpaces xs := by
  unfold pyStrip
  rw [List.dropWhile_cons, if_neg (by simp [h]), dts_cons, if_neg (by simp [h])]

/-- The empty line is not a cookie line. -/
theorem isCookieLine_nil : isCookieLine [] = false := rfl

/-- A line starting with `#` is a comment, not a cookie line. -/
theorem isCookieLine_hash (xs : Str) : isCookieLine ('#' :: xs) = false := by
  simp [isCookieLine, pyStrip_cons_not_space '#' xs rfl]

/-- The auto-save comment line is never read back as a cookie. -/
theorem isCookieLine_commentLine (n : Nat) :
    isCookieLine (commentLine n) = false := by
  obtain ⟨rest, hr⟩ : ∃ rest, commentLine n = '#' :: rest := ⟨_, rfl⟩
  rw [hr, isCookieLine_hash]

/-- Splitting at a leading newline emits the accumulated line. -/
theorem splitLinesAux_cons_nl (xs acc : Str) :
    splitLinesAux ('\n' :: xs) acc = acc.reverse :: splitLinesAux xs [] := by
  simp [splitLinesAux]

/-- A non-terminator character is accumulated. -/
theorem splitLinesAux_cons_other (c : Char) (xs acc : Str)
    (h1 : c ≠ '\n') (h2 : c ≠ '\r') :
    splitLinesAux (c :: xs) acc = splitLinesAux xs (c :: acc) := by
  simp [splitLinesAux, h1, h2]

/-- Every piece produced by the line splitter is free of newline
terminators. -/
theorem splitLinesAux_noNl :
    ∀ (content acc : Str), NoNl acc → ∀ p ∈ splitLinesAux content acc, NoNl p := by
  intro content acc
  induction content, acc using splitLinesAux.induct with
  | case1 acc =>
    intro hacc p hp
    simp only [splitLinesAux, List.mem_singleton] at hp
    subst hp
    intro c hc
    exact hacc c (List.mem_reverse.mp hc)
  | case2 rest acc ih =>
    intro hacc p hp
    rw [show splitLinesAux ('\r' :: '\n' :: rest) acc = acc.reverse :: splitLinesAux rest []
        from by simp [splitLinesAux]] at hp
    rcases List.mem_cons.mp hp with rfl | hp
    · intro c hc; exact hacc c (List.mem_reverse.mp hc)
    · exact ih (by intro c hc; cases hc) p hp
  | case3 rest acc hne ih =>
    intro hacc p hp
    have heq : splitLinesAux ('\r' :: rest) acc = acc.reverse :: splitLinesAux rest [] := by
      cases rest with
      | nil => simp [splitLinesAux]
      | cons d xs =>
        have hd : d ≠ '\n' := fun h => hne xs (by rw [h])
        simp [splitLinesAux, hd]
    rw [heq] at hp
    rcases List.mem_cons.mp hp with rfl | hp
    · intro c hc; exact hacc c (List.mem_reverse.mp hc)
    · exact ih (by intro c hc; cases hc) p hp
  | case4 rest acc ih =>
    intro hacc p hp
    rw [splitLinesAux_cons_nl] at hp
    rcases List.mem_cons.mp hp with rfl | hp
    · intro c hc; exact hacc c (List.mem_reverse.mp hc)
    · exact ih (by intro c hc; cases hc) p hp
  | case5 c rest acc hcr2 hcr hcn ih =>
    intro hacc p hp
    have hc1 : c ≠ '\n' := fun h => hcn h
    have hc2 : c ≠ '\r' := fun h => hcr h
    rw [splitLinesAux_cons_other c rest acc hc1 hc2] at hp
    refine ih ?_ p hp
    intro d hd
    rcases List.mem_cons.mp hd with rfl | hd
    · exact ⟨hc1, hc2⟩
    · exact hacc d hd

/-- Every line read back from a file is free of newline terminators. -/
theorem pyReadLines_noNl (content : Str) : ∀ p ∈ pyReadLines content, NoNl p := by
  intro p hp
  unfold pyReadLines splitLines at hp
  dsimp only at hp
  have hall := splitLinesAux_noNl content [] (by intro c hc; cases hc)
  split at hp
  · exact hall p (List.dropLast_prefix _ |>.subset hp)
  · exact hall p hp

/-- Splitting after a newline-free prefix just accumulates it. -/
theorem splitLinesAux_append (l : Str) (hl : NoNl l) :
    ∀ (acc rest : Str),
      splitLinesAux (l ++ rest) acc = splitLinesAux rest (l.reverse ++ acc) := by
  induction l with
  | nil => intro acc rest; simp
  | cons c l ih =>
    intro acc rest
    have hc := hl c (by simp)
    rw [List.cons_append, splitLinesAux_cons_other c _ _ hc.1 hc.2,
      ih (fun d hd => hl d (by simp [hd])) (c :: acc) rest]
    simp [List.append_assoc]

/-- Splitting the newline-joined, newline-terminated rendering of a
newline-free line list recovers the lines (plus the final empty piece). -/
theorem splitLines_joinCore :
    ∀ lines : List Str, lines ≠ [] → (∀ l ∈ lines, NoNl l) →
      splitLinesAux (joinLinesCore lines ++ ['\n']) [] = lines ++ [[]] := by
  intro lines
  induction lines with
  | nil => intro h; exact absurd rfl h
  | cons l rest ih =>
    intro _ hall
    cases rest with
    | nil =>
      rw [show joinLinesCore [l] = l from rfl,
        splitLinesAux_append l (hall l (by simp)) [] ['\n'],
        splitLinesAux_cons_nl]
      simp [splitLinesAux]
    | cons m rest' =>
      rw [show joinLinesCore (l :: m :: rest') = l ++ '\n' :: joinLinesCore (m :: rest')
          from rfl]
      rw [show (l ++ '\n' :: joinLinesCore (m :: rest')) ++ ['\n'] =
            l ++ ('\n' :: (joinLinesCore (m :: rest') ++ ['\n']))
          from by simp]
      rw [splitLinesAux_append l (hall l (by simp)) [],
        splitLinesAux_cons_nl,
        ih (by simp) (fun x hx => hall x (by simp [hx]))]
      simp

/-- Reading back the file written by `save_cookie` yields exactly the
lines it wrote, provided they are newline-free. -/
theorem pyReadLines_joinLines (lines : List Str) (h0 : lines ≠ [])
    (hall : ∀ l ∈ lines, NoNl l) : pyReadLines (joinLines lines) = lines := by
  cases lines with
  | nil => exact absurd rfl h0
  | cons l rest =>
    unfold pyReadLines splitLines joinLines
    rw [show (match (l :: rest : List Str) with
              | [] => ([] : Str)
              | _ => joinLinesCore (l :: rest) ++ ['\n']) =
          joinLinesCore (l :: rest) ++ ['\n'] from rfl]
    rw [splitLines_joinCore (l :: rest) (by simp) hall]
    rw [if_pos (List.getLast?_concat _)]
    exact List.dropLast_concat

/-- Decimal digit characters are not newline terminators. -/
theorem digitChar_ok (n : Nat) (h : n < 10) :
    digitChar n ≠ '\n' ∧ digitChar n ≠ '\r' := by
  interval_cases n <;> exact (by decide)

/-- The decimal rendering of a number is free of newline terminators. -/
theorem natToStrAux_noNl : ∀ (fuel n : Nat), NoNl (natToStrAux fuel n) := by
  intro fuel
  induction fuel with
  | zero => intro n c hc; cases hc
  | succ fuel ih =>
    intro n c hc
    rw [natToStrAux] at hc
    split at hc
    · rename_i hlt
      simp only [List.mem_singleton] at hc
      subst hc
      exact digitChar_ok n hlt
    · rcases List.mem_append.mp hc with hc | hc
      · exact ih _ c hc
      · simp only [List.mem_singleton] at hc
        subst hc
        exact digitChar_ok _ (Nat.mod_lt _ (by omega))

/-- The auto-save comment line is free of newline terminators. -/
theorem commentLine_noNl (n : Nat) : NoNl (commentLine n) := by
  intro c hc
  unfold commentLine at hc
  rcases List.mem_append.mp hc with hc | hc
  · rcases List.mem_append.mp hc with hc | hc
    · exact (by decide : ∀ c ∈ ("# Account ").toList, c ≠ '\n' ∧ c ≠ '\r') c hc
    · exact natToStrAux_noNl _ _ c hc
  · exact (by decide : ∀ c ∈ (" - Auto-saved after login").toList, c ≠ '\n' ∧ c ≠ '\r') c hc

/-- Shifting the `enumerate` counter shifts every collected index. -/
theorem cookieIdxs_succ (lines : List Str) :
    ∀ i : Nat, cookieIdxs lines (i + 1) = (cookieIdxs lines i).map (· + 1) := by
  induction lines with
  | nil => intro i; rfl
  | cons l rest ih =>
    intro i
    by_cases h : isCookieLine l <;> simp [cookieIdxs, h, ih (i + 1)]

/-- `loadLines` on an append distributes. -/
theorem loadLines_append (a b : List Str) :
    loadLines (a ++ b) = loadLines a ++ loadLines b := by
  unfold loadLines
  exact List.filterMap_append a b _

/-- A file without cookie lines loads as the empty record list. -/
theorem loadLines_eq_nil (lines : List Str) :
    cookieIdxs lines 0 = [] → loadLines lines = [] := by
  induction lines with
  | nil => intro _; rfl
  | cons l rest ih =>
    intro h
    by_cases hcl : isCookieLine l
    · simp [cookieIdxs, hcl] at h
    · rw [cookieIdxs, if_neg hcl, show (1 : Nat) = 0 + 1 from rfl,
        cookieIdxs_succ] at h
      simp only [List.map_eq_nil_iff] at h
      have hr := ih h
      have hcl2 : isCookieLine l = false := by simpa using hcl
      simp [loadLines, List.filterMap_cons, hcl2] at hr ⊢
      exact hr

/-- Overwriting the first cookie line with a stripped cookie record makes
that record the first loaded cookie. -/
theorem loadLines_set_first :
    ∀ (lines : List Str) (t : Str), isCookieLine t = true → pyStrip t = t →
      cookieIdxs lines 0 ≠ [] →
      (loadLines (lines.set ((cookieIdxs lines 0).getD 0 0) t)).head? = some t := by
  intro lines
  induction lines with
  | nil => intro t _ _ h; exact absurd rfl h
  | cons l rest ih =>
    intro t hct hts h
    by_cases hcl : isCookieLine l
    · have hidx : cookieIdxs (l :: rest) 0 = 0 :: cookieIdxs rest 1 := by
        simp [cookieIdxs, hcl]
      rw [hidx]
      simp only [List.getD_cons_zero, List.set_cons_zero]
      simp [loadLines, List.filterMap_cons, hct, hts]
    · have hidx : cookieIdxs (l :: rest) 0 = (cookieIdxs rest 0).map (· + 1) := by
        rw [cookieIdxs, if_neg hcl, show (1 : Nat) = 0 + 1 from rfl, cookieIdxs_succ]
      rw [hidx] at h ⊢
      cases hrest : cookieIdxs rest 0 with
      | nil => rw [hrest] at h; simp at h
      | cons i0 is =>
        simp only [List.map_cons, List.getD_cons_zero]
        rw [List.set_cons_succ]
        simp only [loadLines, List.filterMap_cons, hcl, if_false]
        have hr := ih t hct hts (by rw [hrest]; simp)
        rw [hrest] at hr
        simp only [List.getD_cons_zero] at hr
        unfold loadLines at hr
        simpa using hr

/-- The rewritten line list of `save_cookie` stays newline-free. -/
theorem save_cookie_newLines_noNl (lines : List Str) (t : Str) (ai : Nat)
    (hlines : ∀ l ∈ lines, NoNl l) (ht : NoNl t) :
    ∀ l ∈ save_cookie_newLines lines t ai, NoNl l := by
  intro l hl
  unfold save_cookie_newLines at hl
  dsimp only at hl
  split at hl
  · rcases List.mem_or_eq_of_mem_set hl with h | rfl
    · exact hlines l h
    · exact ht
  · rcases List.mem_append.mp hl with h | h
    · split at h
      · rcases List.mem_append.mp h with h | h
        · exact hlines l h
        · simp only [List.mem_singleton] at h
          subst h
          intro c hc
          cases hc
      · exact hlines l h
    · simp only [List.mem_cons, List.mem_singleton, List.not_mem_nil, or_false] at h
      rcases h with rfl | rfl
      · exact commentLine_noNl _
      · exact ht

/-- The rewritten line list is never empty. -/
theorem save_cookie_newLines_ne_nil (lines : List Str) (t : Str) (ai : Nat) :
    save_cookie_newLines lines t ai ≠ [] := by
  unfold save_cookie_newLines
  dsimp only
  split
  · rename_i hai
    intro hnil
    rw [List.set_eq_nil_iff] at hnil
    subst hnil
    simp [cookieIdxs] at hai
  · simp

/-- After `save_cookie`'s rewrite at account slot 0, the first loaded
cookie is the stripped record. -/
theorem loadLines_save_newLines_head (lines : List Str) (t : Str)
    (hct : isCookieLine t = true) (hts : pyStrip t = t) :
    (loadLines (save_cookie_newLines lines t 0)).head? = some t := by
  unfold save_cookie_newLines
  dsimp only
  by_cases h : 0 < (cookieIdxs lines 0).length
  · rw [if_pos h]
    exact loadLines_set_first lines t hct hts (by
      intro h0
      rw [h0] at h
      simp at h)
  · rw [if_neg h]
    have hidx : cookieIdxs lines 0 = [] := by
      cases hx : cookieIdxs lines 0 with
      | nil => rfl
      | cons a b => rw [hx] at h; simp at h
    have hload : loadLines lines = [] := loadLines_eq_nil lines hidx
    have hbase :
        loadLines (if !lines.isEmpty && !(lines.getLastD []).isEmpty
                   then lines ++ [[]] else lines) = [] := by
      split
      · rw [loadLines_append, hload]
        simp [loadLines, List.filterMap_cons, isCookieLine_nil]
      · exact hload
    rw [loadLines_append, hbase]
    simp [loadLines, List.filterMap_cons, isCookieLine_commentLine, hct, hts]

/-- A fresh (uncached) `get_all_cookies` reads the platform's file. -/
theorem get_all_cookies_fresh (st : CMState) (platform : String)
    (hc : st.cache (pyLower platform) = none) :
    (get_all_cookies st platform).1 =
      load_cookies_from_file (st.files (get_cookie_file (pyLower platform))) := by
  unfold get_all_cookies
  dsimp only
  rw [hc]

/-- `get_cookie` at account index 0 (no random selection) returns the head
of the loaded cookie list. -/
theorem get_cookie_first (st : CMState) (platform : String)
    (rand : List Str → Str) (t : Str) (r : List Str)
    (h : (get_all_cookies st platform).1 = t :: r) :
    (get_cookie st platform (some 0) false rand).1 = t := by
  unfold get_cookie
  dsimp only
  rw [h]
  rw [if_neg (by simp)]
  have hcond : 0 ≤ (0 : Int) ∧ (0 : Int) < ((t :: r).length : Int) := by
    refine ⟨by omega, ?_⟩
    simp only [List.length_cons]
    omega
  rw [if_pos hcond]
  rfl

/-- C6 (amended): `save_cookie(P, s)` followed by
`get_cookie(P, account_index=0, random_select=False)` returns exactly
`s.strip()`, for every prior store state and every platform whose cookie
file name resolves identically for `P` and `P.lower()` (all known aliases
and all-lowercase names), provided the stripped cookie is non-empty, does
not start with `#`, contains `=`, and holds no newline character — the
conditions under which the line-oriented store can represent it. -/
theorem save_get_cookie_roundtrip (st : CMState) (platform : String) (s : Str)
    (rand : List Str → Str)
    (h1 : pyStrip s ≠ [])
    (h2 : (pyStrip s).head? ≠ some '#')
    (h3 : (pyStrip s).contains '=' = true)
    (h4 : NoNl (pyStrip s))
    (hf : get_cookie_file platform = get_cookie_file (pyLower platform)) :
    (save_cookie st platform s 0).1 = true ∧
    (get_cookie (save_cookie st platform s 0).2 platform (some 0) false rand).1 =
      pyStrip s := by
  have hsne : s ≠ [] := fun h => h1 (by rw [h]; rfl)
  have e1 : s.isEmpty = false := by
    cases s with
    | nil => exact absurd rfl hsne
    | cons a l => rfl
  have e2 : (pyStrip s).isEmpty = false := by
    cases hps : pyStrip s with
    | nil => exact absurd hps h1
    | cons a l => rfl
  have hguard : ¬((s.isEmpty || (pyStrip s).isEmpty) = true) := by simp [e1, e2]
  have hts : pyStrip (pyStrip s) = pyStrip s := pyStrip_idem s
  have hct : isCookieLine (pyStrip s) = true := by
    have h3m : '=' ∈ pyStrip s := by simpa using h3
    unfold isCookieLine
    rw [hts]
    simp [e2, h2, h3m]
  have hsave : save_cookie st platform s 0 =
      (true,
        { files := fun k =>
            if k = get_cookie_file platform
            then some (joinLines (save_cookie_newLines
              (readCookieFileLines (st.files (get_cookie_file platform)))
              (pyStrip s) 0))
            else st.files k,
          cache := fun k => if k = pyLower platform then none else st.cache k }) := by
    unfold save_cookie
    rw [if_neg hguard]
  have hlinesNoNl :
      ∀ l ∈ readCookieFileLines (st.files (get_cookie_file platform)), NoNl l := by
    unfold readCookieFileLines
    cases st.files (get_cookie_file platform) with
    | none => intro l hl; cases hl
    | some content => exact fun l hl => pyReadLines_noNl content l hl
  have hnn := save_cookie_newLines_noNl _ (pyStrip s) 0 hlinesNoNl h4
  have hnne := save_cookie_newLines_ne_nil
    (readCookieFileLines (st.files (get_cookie_file platform))) (pyStrip s) 0
  have hread := pyReadLines_joinLines _ hnne hnn
  have hhead := loadLines_save_newLines_head
    (readCookieFileLines (st.files (get_cookie_file platform))) (pyStrip s) hct hts
  obtain ⟨restc, hcs⟩ : ∃ r, loadLines (save_cookie_newLines
      (readCookieFileLines (st.files (get_cookie_file platform)))
      (pyStrip s) 0) = pyStrip s :: r := by
    cases hx : loadLines (save_cookie_newLines
        (readCookieFileLines (st.files (get_cookie_file platform)))
        (pyStrip s) 0) with
    | nil => rw [hx] at hhead; cases hhead
    | cons a r =>
      rw [hx] at hhead
      simp only [List.head?_cons, Option.some.injEq] at hhead
      exact ⟨r, by rw [hhead]⟩
  refine ⟨by rw [hsave], ?_⟩
  rw [hsave]
  apply get_cookie_first _ platform rand (pyStrip s) restc
  rw [get_all_cookies_fresh _ platform (by dsimp only; rw [if_pos rfl])]
  dsimp only
  rw [if_pos hf.symm]
  unfold load_cookies_from_file
  dsimp only
  rw [hread, hcs]

/-- Witness for C6's amended theorem: saving `a=1` into an empty store and
reading account 0 back returns `a=1`. -/
theorem save_get_cookie_roundtrip_witness :
    pyStrip ("a=1").toList ≠ [] ∧
    (pyStrip ("a=1").toList).head? ≠ some '#' ∧
    (pyStrip ("a=1").toList).contains '=' = true ∧
    NoNl (pyStrip ("a=1").toList) ∧
    get_cookie_file "xhs" = get_cookie_file (pyLower "xhs") ∧
    ((save_cookie stEmpty "xhs" ("a=1").toList 0).1 = true ∧
     (get_cookie (save_cookie stEmpty "xhs" ("a=1").toList 0).2 "xhs" (some 0) false
       (fun _ => [])).1 = pyStrip ("a=1").toList) :=
  ⟨by decide, by decide, by decide, by decide, by decide,
   save_get_cookie_roundtrip stEmpty "xhs" (("a=1").toList) (fun _ => [])
     (by decide) (by decide) (by decide) (by decide) (by decide)⟩

set_option maxRecDepth 4000 in
/-- C6 (counterexample): for the non-empty string "hello" (no `=` in it),
`save_cookie` succeeds and writes the line, but `_load_cookies_from_file`
drops lines without `=`, so the following `get_cookie` returns the empty
string rather than `"hello".strip()` — refuting the round-trip claim for
arbitrary non-empty strings. -/
theorem save_get_cookie_roundtrip_cex :
    ("hello").toList ≠ [] ∧
    (save_cookie stEmpty "xhs" ("hello").toList 0).1 = true ∧
    (get_cookie (save_cookie stEmpty "xhs" ("hello").toList 0).2 "xhs" (some 0) false
      (fun _ => [])).1 = [] ∧
    pyStrip ("hello").toList = ("hello").toList ∧
    ([] : Str) ≠ ("hello").toList := by
  refine ⟨by decide, by decide, by decide, by decide, by decide⟩

/-- C8: `get_cookie` with a negative `account_index` returns the empty
string even when records exist (the `0 <= account_index` bound check
rejects it; Python negative indexing is never applied), exactly as for an
index past the end. -/
theorem get_cookie_negative_index (st : CMState) (platform : String)
    (rand : List Str → Str)
    (hst : (get_all_cookies st platform).1 ≠ []) :
    (∀ i : Int, i < 0 → (get_cookie st platform (some i) false rand).1 = []) ∧
    (∀ j : Int, ((get_all_cookies st platform).1.length : Int) ≤ j →
      (get_cookie st platform (some j) false rand).1 = []) := by
  have key : ∀ k : Int,
      (k < 0 ∨ ((get_all_cookies st platform).1.length : Int) ≤ k) →
      (get_cookie st platform (some k) false rand).1 = [] := by
    intro k hk
    unfold get_cookie
    dsimp only
    cases hc : (get_all_cookies st platform).1 with
    | nil => exact absurd hc hst
    | cons a l =>
      rw [hc] at hk
      rw [if_neg (by simp), if_neg (by
        rintro ⟨hk0, hklen⟩
        rcases hk with hk | hk <;> omega)]
  exact ⟨fun i hi => key i (Or.inl hi), fun j hj => key j (Or.inr hj)⟩

/-- Witness for C8: a store with one xhs record returns `""` both for
index `-1` and for index `1` (just past the end). -/
theorem get_cookie_negative_index_witness :
    (get_all_cookies stC8 "xhs").1 ≠ [] ∧
    ((-1 : Int) < 0) ∧
    (get_cookie stC8 "xhs" (some (-1)) false (fun _ => [])).1 = [] ∧
    (get_cookie stC8 "xhs" (some 1) false (fun _ => [])).1 = [] :=
  ⟨by decide, by decide,
   (get_cookie_negative_index stC8 "xhs" (fun _ => []) (by decide)).1 (-1) (by decide),
   (get_cookie_negative_index stC8 "xhs" (fun _ => []) (by decide)).2 1 (by decide)⟩

end MediaAdapter
